import Mathlib

/-!
Verification of the MFA enrollment wizard in
`apps/web/src/components/dialogs/multifactordialog.tsx`.

The file shallowly embeds the step registries (`steps` and `fallbackSteps`),
the wizard controller logic of `MultifactorDialog` (the `onNext` handler, the
`setError` error channel and the cancellable negative button), and the
behaviourally relevant parts of the step components (`ChooseAuthenticator`,
`AuthenticatorSelector`, `VerifyAuthenticatorForm`, `SetupSMS`,
`BackupRecoveryCodes`).  React rendering, icons and styling are omitted; the
transition structure, argument forwarding and error reporting are kept exactly
as in the source.
-/

/-- `AuthenticatorType` from the source: `"app" | "sms" | "email"`. -/
inductive AuthenticatorType where
  | app
  | sms
  | email
deriving DecidableEq

/-- The `Authenticator` record of the method catalog (the `icon` field is a
React component reference and is omitted from the embedding). -/
structure Authenticator where
  type : AuthenticatorType
  title : String
  subtitle : String
  recommended : Bool := false
deriving DecidableEq

/-- `defaultAuthenticators: AuthenticatorType[] = ["app", "sms", "email"]`. -/
def defaultAuthenticators : List AuthenticatorType :=
  [AuthenticatorType.app, AuthenticatorType.sms, AuthenticatorType.email]

/-- First entry of the `Authenticators` catalog. -/
def authenticatorApp : Authenticator :=
  { type := AuthenticatorType.app
    title := "Set up using an Authenticator app"
    subtitle := "Use an authenticator app like Aegis or Raivo Authenticator to get the authentication codes."
    recommended := true }

/-- Second entry of the `Authenticators` catalog. -/
def authenticatorSms : Authenticator :=
  { type := AuthenticatorType.sms
    title := "Set up using SMS"
    subtitle := "Notesnook will send you an SMS text with the 2FA code at login." }

/-- Third entry of the `Authenticators` catalog. -/
def authenticatorEmail : Authenticator :=
  { type := AuthenticatorType.email
    title := "Set up using Email"
    subtitle := "Notesnook will send you the 2FA code on your email at login." }

/-- The `Authenticators` method catalog. -/
def Authenticators : List Authenticator :=
  [authenticatorApp, authenticatorSms, authenticatorEmail]

/-- The step keys of the primary registry (`keyof Steps`); the fallback
registry uses the subset without `recoveryCodes`. -/
inductive StepKey where
  | choose
  | setup
  | recoveryCodes
  | finish
deriving DecidableEq

/-- Identifies which React component a step descriptor's `component` field
instantiates, together with the props baked in by the step factory. -/
inductive ComponentTag where
  | chooseAuthenticator (authenticators : List AuthenticatorType)
  | authenticatorSelector (authenticator : AuthenticatorType) (isFallback : Bool)
  | backupRecoveryCodes (authenticatorType : AuthenticatorType)
  | twoFactorEnabled (authenticatorType : AuthenticatorType)
  | fallback2FAEnabled (fallbackMethod primaryMethod : AuthenticatorType)
deriving DecidableEq

/-- The `Step` descriptor: optional title/description, the component,
the optional successor key and the cancellable flag (absent = `false`,
matching JS truthiness of a missing field). -/
structure Step where
  title : Option String := none
  description : Option String := none
  component : Option ComponentTag := none
  next : Option StepKey := none
  cancellable : Bool := false
deriving DecidableEq

/-- `defaultAuthenticators.filter((i) => i !== primaryMethod)` — the candidate
computation of the fallback `choose` step, generalized over the catalog the
filter is applied to. -/
def excludeMethod (catalog : List AuthenticatorType) (m : AuthenticatorType) :
    List AuthenticatorType :=
  catalog.filter (fun i => i != m)

namespace steps

/-- `steps.choose` of the primary registry. -/
def choose : Step :=
  { title := some "Protect your notes by enabling 2FA"
    description := some "Choose how you want to receive your authentication codes."
    component := some (ComponentTag.chooseAuthenticator defaultAuthenticators)
    next := some StepKey.setup
    cancellable := true }

/-- `steps.setup(authenticator)` of the primary registry. -/
def setup (authenticator : Authenticator) : Step :=
  { title := some authenticator.title
    description := some authenticator.subtitle
    next := some StepKey.recoveryCodes
    component := some (ComponentTag.authenticatorSelector authenticator.type false) }

/-- The interpolated description string of `steps.recoveryCodes`. -/
def recoveryCodesDescription (authenticatorType : AuthenticatorType) : String :=
  "If you lose access to your " ++
    (match authenticatorType with
      | AuthenticatorType.email => "email"
      | AuthenticatorType.sms => "phone"
      | AuthenticatorType.app => "auth app") ++
    ", you can login to Notesnook using your recovery codes. Each code can only be used once!"

/-- `steps.recoveryCodes(authenticatorType)` of the primary registry. -/
def recoveryCodes (authenticatorType : AuthenticatorType) : Step :=
  { title := some "Save your recovery codes"
    description := some (recoveryCodesDescription authenticatorType)
    component := some (ComponentTag.backupRecoveryCodes authenticatorType)
    next := some StepKey.finish }

/-- `steps.finish(authenticatorType)` of the primary registry: terminal,
no successor key, not cancellable. -/
def finish (authenticatorType : AuthenticatorType) : Step :=
  { component := some (ComponentTag.twoFactorEnabled authenticatorType) }

end steps

namespace fallbackSteps

/-- `fallbackSteps.choose(primaryMethod)`: offers the default catalog with the
primary method filtered out. -/
def choose (primaryMethod : AuthenticatorType) : Step :=
  { title := some "Add a fallback 2FA method"
    description := some "A fallback method helps you get your 2FA codes on an alternative device in case you lose your primary device."
    component := some
      (ComponentTag.chooseAuthenticator (excludeMethod defaultAuthenticators primaryMethod))
    next := some StepKey.setup
    cancellable := true }

/-- `fallbackSteps.setup(authenticator)`: continues to `finish`, cancellable. -/
def setup (authenticator : Authenticator) : Step :=
  { title := some authenticator.title
    description := some authenticator.subtitle
    next := some StepKey.finish
    cancellable := true
    component := some (ComponentTag.authenticatorSelector authenticator.type true) }

/-- `fallbackSteps.finish(fallbackMethod, primaryMethod)`: terminal. -/
def finish (fallbackMethod primaryMethod : AuthenticatorType) : Step :=
  { component := some (ComponentTag.fallback2FAEnabled fallbackMethod primaryMethod) }

end fallbackSteps

/-- A dynamically typed argument forwarded through an `onNext` call: either a
full `Authenticator` record (passed by `ChooseAuthenticator`) or a bare
method tag (passed by `AuthenticatorSelector` / `BackupRecoveryCodes`, or
appended as the primary method in fallback mode). -/
inductive Value where
  | auth (a : Authenticator)
  | method (m : AuthenticatorType)
deriving DecidableEq

/-- A step factory as stored in a registry table: takes the JS argument list
and yields the step descriptor.  A call whose arguments do not match the
factory's parameter shape is a programming-contract violation and is modelled
as `none`. -/
def StepCreator : Type := List Value → Option Step

/-- Factory entry for `steps.choose` (nullary in the source, so all forwarded
arguments are ignored). -/
def chooseCreator : StepCreator := fun _ => some steps.choose

/-- Factory entry for `steps.setup(authenticator)`. -/
def setupCreator : StepCreator := fun args =>
  match args with
  | Value.auth a :: _ => some (steps.setup a)
  | _ => none

/-- Factory entry for `steps.recoveryCodes(authenticatorType)`. -/
def recoveryCodesCreator : StepCreator := fun args =>
  match args with
  | Value.method t :: _ => some (steps.recoveryCodes t)
  | _ => none

/-- Factory entry for `steps.finish(authenticatorType)`. -/
def finishCreator : StepCreator := fun args =>
  match args with
  | Value.method t :: _ => some (steps.finish t)
  | _ => none

/-- The primary registry table `steps`, keyed by step name; every key of
`StepKey` is present. -/
def stepsRegistry : StepKey → Option StepCreator
  | StepKey.choose => some chooseCreator
  | StepKey.setup => some setupCreator
  | StepKey.recoveryCodes => some recoveryCodesCreator
  | StepKey.finish => some finishCreator

/-- Factory entry for `fallbackSteps.choose(primaryMethod)`. -/
def fallbackChooseCreator : StepCreator := fun args =>
  match args with
  | Value.method m :: _ => some (fallbackSteps.choose m)
  | _ => none

/-- Factory entry for `fallbackSteps.setup(authenticator)`. -/
def fallbackSetupCreator : StepCreator := fun args =>
  match args with
  | Value.auth a :: _ => some (fallbackSteps.setup a)
  | _ => none

/-- Factory entry for `fallbackSteps.finish(fallbackMethod, primaryMethod)`. -/
def fallbackFinishCreator : StepCreator := fun args =>
  match args with
  | Value.method fb :: Value.method pm :: _ => some (fallbackSteps.finish fb pm)
  | _ => none

/-- The fallback registry table `fallbackSteps`: it has no `recoveryCodes`
entry (indexing it at that key yields `undefined`, modelled as `none`). -/
def fallbackStepsRegistry : StepKey → Option StepCreator
  | StepKey.choose => some fallbackChooseCreator
  | StepKey.setup => some fallbackSetupCreator
  | StepKey.recoveryCodes => none
  | StepKey.finish => some fallbackFinishCreator

/-- The wizard state held by `MultifactorDialog`: the current step descriptor
(`useState` `step`) and the current error message (`useState` `error`,
initially `undefined`).  The mode bit is the `primaryMethod` prop, fixed for
the session, and is passed separately. -/
structure WizardState where
  step : Step
  error : Option String := none
deriving DecidableEq

/-- Initial wizard state:
`primaryMethod ? fallbackSteps.choose(primaryMethod) : steps.choose()`. -/
def initState (primaryMethod : Option AuthenticatorType) : WizardState :=
  { step :=
      match primaryMethod with
      | some m => fallbackSteps.choose m
      | none => steps.choose
    error := none }

/-- The registry resolution of the `onNext` handler:
`step.next !== "recoveryCodes" && primaryMethod ? fallbackSteps[step.next] : steps[step.next]`. -/
def resolveCreator (primaryMethod : Option AuthenticatorType) (nextKey : StepKey) :
    Option StepCreator :=
  if nextKey ≠ StepKey.recoveryCodes ∧ primaryMethod.isSome then
    fallbackStepsRegistry nextKey
  else
    stepsRegistry nextKey

/-- The argument list passed to the resolved factory:
`primaryMethod ? nextStepCreator(...args, primaryMethod) : nextStepCreator(...args)`. -/
def callArgs (primaryMethod : Option AuthenticatorType) (args : List Value) : List Value :=
  match primaryMethod with
  | some m => args ++ [Value.method m]
  | none => args

/-- Outcome of one `onNext` event: the dialog closed (`onClose`), the step
state was replaced (`setStep`), or a programming-contract violation occurred
(undefined registry entry or argument-shape mismatch). -/
inductive AdvanceResult where
  | closed
  | moved (s : WizardState)
  | contractError
deriving DecidableEq

/-- The `onNext` handler of `MultifactorDialog`: close when the current step
has no successor key; otherwise resolve the factory, call it with the
(possibly extended) arguments and replace the step.  The `error` state
variable is not touched by this handler. -/
def advance (primaryMethod : Option AuthenticatorType) (s : WizardState)
    (args : List Value) : AdvanceResult :=
  match s.step.next with
  | none => AdvanceResult.closed
  | some nextKey =>
    match resolveCreator primaryMethod nextKey with
    | none => AdvanceResult.contractError
    | some creator =>
      match creator (callArgs primaryMethod args) with
      | none => AdvanceResult.contractError
      | some nextStep => AdvanceResult.moved { step := nextStep, error := s.error }

/-- The `onError` handler of `MultifactorDialog` (`setError`): replaces the
error message, leaves the step untouched. -/
def reportError (s : WizardState) (msg : String) : WizardState :=
  { step := s.step, error := some msg }

/-- The error actually rendered: the source guards with `{error && ...}`, so
an empty string (falsy) displays nothing. -/
def displayedError (s : WizardState) : Option String :=
  match s.error with
  | some e => if e = "" then none else some e
  | none => none

/-- A cancel attempt: the negative (Cancel) button exists only when
`step.cancellable` is set, and clicking it calls `onClose`.  Returns the
wizard state afterwards and whether the dialog closed. -/
def attemptCancel (s : WizardState) : WizardState × Bool :=
  if s.step.cancellable then (s, true) else (s, false)

/-- The wizard states reachable in one dialog session with the given
`primaryMethod` prop: the initial state, plus everything produced by
successful `onNext` transitions and by `onError` reports. -/
inductive Reachable (primaryMethod : Option AuthenticatorType) : WizardState → Prop where
  | init : Reachable primaryMethod (initState primaryMethod)
  | advanced (s s' : WizardState) (args : List Value) :
      Reachable primaryMethod s →
      advance primaryMethod s args = AdvanceResult.moved s' →
      Reachable primaryMethod s'
  | errored (s : WizardState) (msg : String) :
      Reachable primaryMethod s →
      Reachable primaryMethod (reportError s msg)

/-- Outcome of `AuthenticatorSelector.onSubmitCode`: either `onNext` is called
with the authenticator tag, or the caught error message is reported. -/
inductive SubmitOutcome where
  | advanced (args : List Value)
  | reportedError (msg : String)
deriving DecidableEq

/-- `AuthenticatorSelector.onSubmitCode`: awaits
`db.mfa.enableFallback(authenticator, code)` (fallback) or
`db.mfa.enable(authenticator, code)` (primary) — modelled by the `confirm`
oracle — then calls `onNext(authenticator)` on success, `onError(e.message)`
on failure. -/
def onSubmitCode (isFallback : Bool) (authenticator : AuthenticatorType)
    (confirm : Bool → AuthenticatorType → String → Except String Unit)
    (code : String) : SubmitOutcome :=
  match confirm isFallback authenticator code with
  | Except.ok _ => SubmitOutcome.advanced [Value.method authenticator]
  | Except.error msg => SubmitOutcome.reportedError msg

/-- Composition of `onSubmitCode` with the dialog's handlers: `onNext` feeds
`advance`, `onError` feeds `reportError` (the step is kept). -/
def handleSubmitCode (primaryMethod : Option AuthenticatorType) (s : WizardState)
    (isFallback : Bool) (authenticator : AuthenticatorType)
    (confirm : Bool → AuthenticatorType → String → Except String Unit)
    (code : String) : AdvanceResult :=
  match onSubmitCode isFallback authenticator confirm code with
  | SubmitOutcome.advanced args => advance primaryMethod s args
  | SubmitOutcome.reportedError msg => AdvanceResult.moved (reportError s msg)

/-- The submit guard of `VerifyAuthenticatorForm`:
`if (!code || code.toString().length !== 6) return;` — yields the code passed
on to `onSubmitCode`, or `none` when the submission is dropped locally.
The form value is `none` when the field is absent; the empty string is falsy. -/
def submitCodeForm (code : Option String) : Option String :=
  match code with
  | none => none
  | some c => if c = "" then none else if c.length ≠ 6 then none else some c

/-- Full form submission: the local guard first; only a code that passes it
reaches `onSubmitCode` (and hence the verification adapter).  `none` means no
adapter call of any kind was made. -/
def handleFormSubmit (primaryMethod : Option AuthenticatorType) (s : WizardState)
    (isFallback : Bool) (authenticator : AuthenticatorType)
    (confirm : Bool → AuthenticatorType → String → Except String Unit)
    (code : Option String) : Option AdvanceResult :=
  match submitCodeForm code with
  | none => none
  | some c => some (handleSubmitCode primaryMethod s isFallback authenticator confirm c)

/-- Local state of the `SetupSMS` component: the validated phone number
(`useState`, initially `undefined`, reset to `""` on invalid input) and the
step-local error message. -/
structure SMSState where
  phoneNumber : Option String := none
  error : Option String := none
deriving DecidableEq

/-- The `onChange` handler of the phone-number field in `SetupSMS`: empty
input only clears the error; otherwise the external `phone` validator is
consulted (modelled by `validate`, returning the normalized number when
valid). -/
def smsOnChange (validate : String → Option String) (st : SMSState)
    (number : String) : SMSState :=
  if number = "" then { st with error := some "" }
  else
    match validate number with
    | some normalized => { phoneNumber := some normalized, error := some "" }
    | none =>
      { phoneNumber := some ""
        error := some "Please enter a valid phone number with country code." }

/-- Outcome of the Send-code action in `SetupSMS`: either the click is
rejected locally with an error message, or `db.mfa.setup("sms", phoneNumber)`
is invoked with the stored number. -/
inductive SendOutcome where
  | blocked (msg : String)
  | setupCalled (phoneNumber : String)
deriving DecidableEq

/-- The Send-code `onClick` of `SetupSMS`:
`if (!phoneNumber) { setError("Please provide a phone number."); return; }`
(both `undefined` and `""` are falsy) and otherwise the setup call is made. -/
def smsSendCode (st : SMSState) : SendOutcome :=
  match st.phoneNumber with
  | none => SendOutcome.blocked "Please provide a phone number."
  | some p =>
    if p = "" then SendOutcome.blocked "Please provide a phone number."
    else SendOutcome.setupCalled p

/-- `BackupRecoveryCodes.generate`: first reports `""` through `onError`
(clearing the shown error), then awaits `db.mfa?.codes()` — modelled by
`result`, where `Except.ok none` is a missing (`undefined`) code list — and
replaces the displayed codes only when a truthy list came back; a thrown
error leaves the codes untouched and reports the message.  Returns the
displayed codes afterwards and the sequence of `onError` reports. -/
def generate (result : Except String (Option (List String)))
    (codes : List String) : List String × List String :=
  match result with
  | Except.ok (some newCodes) => (newCodes, [""])
  | Except.ok none => (codes, [""])
  | Except.error msg => (codes, ["", msg])

/-- The candidate list a `choose`-style step offers: the `authenticators` prop
baked into its `ChooseAuthenticator` component. -/
def candidatesOf (s : Step) : Option (List AuthenticatorType) :=
  match s.component with
  | some (ComponentTag.chooseAuthenticator l) => some l
  | _ => none

/-- The step descriptors that fallback-mode factories can produce: the three
images of the `fallbackSteps` table. -/
def FallbackShape (s : Step) : Prop :=
  (∃ pm, s = fallbackSteps.choose pm) ∨ (∃ a, s = fallbackSteps.setup a) ∨
    (∃ fb pm, s = fallbackSteps.finish fb pm)

/-- Invariant: in a fallback-mode session every reachable state's current step
descriptor comes from the `fallbackSteps` table. -/
lemma reachable_fallback_shape (m : AuthenticatorType) (s : WizardState)
    (h : Reachable (some m) s) : FallbackShape s.step := by
  induction h with
  | init =>
    exact Or.inl ⟨m, rfl⟩
  | advanced s s' args hr hadv ih =>
    rcases ih with ⟨pm, hs⟩ | ⟨a, hs⟩ | ⟨fb, pm, hs⟩
    · -- from the fallback choose step: successor key is `setup`
      unfold advance at hadv
      rw [show s.step.next = some StepKey.setup by rw [hs]; rfl] at hadv
      simp only [resolveCreator, fallbackStepsRegistry, callArgs] at hadv
      rw [if_pos (by simp)] at hadv
      rcases args with _ | ⟨v, rest⟩
      · simp [fallbackSetupCreator] at hadv
      · cases v with
        | auth a =>
          simp only [List.cons_append, fallbackSetupCreator] at hadv
          injection hadv with hadv
          exact Or.inr (Or.inl ⟨a, by rw [← hadv]⟩)
        | method m2 =>
          simp [fallbackSetupCreator] at hadv
    · -- from the fallback setup step: successor key is `finish`
      unfold advance at hadv
      rw [show s.step.next = some StepKey.finish by rw [hs]; rfl] at hadv
      simp only [resolveCreator, fallbackStepsRegistry, callArgs] at hadv
      rw [if_pos (by simp)] at hadv
      rcases args with _ | ⟨v, rest⟩
      · simp [fallbackFinishCreator] at hadv
      · cases v with
        | auth a =>
          simp [fallbackFinishCreator] at hadv
        | method fb2 =>
          rcases rest with _ | ⟨w, rest2⟩
          · simp only [List.cons_append, List.nil_append, fallbackFinishCreator] at hadv
            injection hadv with hadv
            exact Or.inr (Or.inr ⟨fb2, m, by rw [← hadv]⟩)
          · cases w with
            | auth a2 =>
              simp [fallbackFinishCreator] at hadv
            | method pm2 =>
              simp only [List.cons_append, fallbackFinishCreator] at hadv
              injection hadv with hadv
              exact Or.inr (Or.inr ⟨fb2, pm2, by rw [← hadv]⟩)
    · -- from the terminal fallback finish step: no successor, only closes
      unfold advance at hadv
      rw [show s.step.next = none by rw [hs]; rfl] at hadv
      exact absurd hadv (by simp)
  | errored s msg hr ih =>
    exact ih

/-- Claim C1: on an advance event, in fallback mode (a primary method was
supplied) the successor factory is taken from the fallback registry exactly
when the successor key is not `recoveryCodes` (otherwise from the primary
registry), and the original primary method is appended as a trailing argument
to the factory call; in primary mode the primary registry is always used with
exactly the forwarded arguments. -/
theorem mfa_C1_registry_resolution :
    ∀ (m : AuthenticatorType) (nextKey : StepKey) (args : List Value),
      ((resolveCreator (some m) nextKey = fallbackStepsRegistry nextKey) ↔
        nextKey ≠ StepKey.recoveryCodes)
      ∧ resolveCreator (some m) StepKey.recoveryCodes =
          stepsRegistry StepKey.recoveryCodes
      ∧ callArgs (some m) args = args ++ [Value.method m]
      ∧ resolveCreator none nextKey = stepsRegistry nextKey
      ∧ callArgs none args = args := by
  intro m nextKey args
  refine ⟨?_, by simp [resolveCreator], rfl, ?_, rfl⟩
  · cases nextKey <;>
      simp [resolveCreator, stepsRegistry, fallbackStepsRegistry]
  · simp [resolveCreator]

/-- Claim C2: in a session started in fallback mode no reachable wizard state
has the `recoveryCodes` step as its current step; moreover the fallback
`choose` step's successor is `setup` and the fallback `setup` step's
successor is `finish`. -/
theorem mfa_C2_no_recovery_codes_in_fallback :
    ∀ (m : AuthenticatorType) (s : WizardState), Reachable (some m) s →
      (∀ t, s.step ≠ steps.recoveryCodes t)
      ∧ (∀ pm, (fallbackSteps.choose pm).next = some StepKey.setup)
      ∧ (∀ a, (fallbackSteps.setup a).next = some StepKey.finish) := by
  intro m s h
  refine ⟨?_, fun _ => rfl, fun _ => rfl⟩
  intro t heq
  rcases reachable_fallback_shape m s h with ⟨pm, hs⟩ | ⟨a, hs⟩ | ⟨fb, pm, hs⟩ <;>
    rw [hs] at heq <;>
    simp [fallbackSteps.choose, fallbackSteps.setup, fallbackSteps.finish,
      steps.recoveryCodes, Step.mk.injEq] at heq

/-- Witness for C2 at the initial fallback state for primary method `app`. -/
theorem mfa_C2_witness :
    (initState (some AuthenticatorType.app)).step ≠
      steps.recoveryCodes AuthenticatorType.app :=
  (mfa_C2_no_recovery_codes_in_fallback AuthenticatorType.app
    (initState (some AuthenticatorType.app)) Reachable.init).1 AuthenticatorType.app

/-- Claim C3: the fallback `choose` step's candidate list is the method
catalog with the primary method removed; for primary `app` and the default
catalog it is exactly `[sms, email]`; and the enrolled primary method is never
offered, for every catalog the filter is applied to. -/
theorem mfa_C3_fallback_choose_candidates :
    ∀ (m : AuthenticatorType) (catalog : List AuthenticatorType),
      candidatesOf (fallbackSteps.choose m) =
        some (excludeMethod defaultAuthenticators m)
      ∧ excludeMethod defaultAuthenticators AuthenticatorType.app =
          [AuthenticatorType.sms, AuthenticatorType.email]
      ∧ m ∉ excludeMethod catalog m := by
  intro m catalog
  refine ⟨rfl, by decide, ?_⟩
  simp [excludeMethod, List.mem_filter]

/-- Claim C4: `reportError` never changes the current step: it only sets the
error message, two consecutive reports leave the session on the same step,
and a verification failure (the adapter rejecting code `000000` during
`setup`) only reports the caught message — the step is kept and no transition
occurs. -/
theorem mfa_C4_report_error_keeps_step :
    ∀ (s : WizardState) (msg msg2 : String) (pm : Option AuthenticatorType)
      (isFb : Bool) (auth : AuthenticatorType)
      (confirm : Bool → AuthenticatorType → String → Except String Unit)
      (errMsg : String),
      (reportError s msg).step = s.step
      ∧ (reportError s msg).error = some msg
      ∧ (reportError (reportError s msg) msg2).step = s.step
      ∧ (confirm isFb auth "000000" = Except.error errMsg →
          handleSubmitCode pm s isFb auth confirm "000000" =
            AdvanceResult.moved (reportError s errMsg)) := by
  intro s msg msg2 pm isFb auth confirm errMsg
  refine ⟨rfl, rfl, rfl, fun hc => ?_⟩
  simp [handleSubmitCode, onSubmitCode, hc]

/-- Witness for C4: a concrete adapter that rejects `000000` leaves the
wizard on the same step with the error recorded. -/
theorem mfa_C4_witness :
    handleSubmitCode none (initState none) false AuthenticatorType.app
        (fun _ _ _ => Except.error "Invalid code") "000000" =
      AdvanceResult.moved (reportError (initState none) "Invalid code") :=
  (mfa_C4_report_error_keeps_step (initState none) "x" "y" none false
    AuthenticatorType.app (fun _ _ _ => Except.error "Invalid code")
    "Invalid code").2.2.2 rfl

/-- Counterexample to claim C5: the claim says a successful advance clears a
pending error message, but the `onNext` handler never touches the `error`
state: from the reachable state (primary mode, `choose` step, pending error
`oops`), advancing with a chosen authenticator moves to the `setup` step with
the error message still present. -/
theorem mfa_C5_counterexample :
    Reachable none (reportError (initState none) "oops")
    ∧ advance none (reportError (initState none) "oops")
        [Value.auth authenticatorApp] =
        AdvanceResult.moved
          { step := steps.setup authenticatorApp, error := some "oops" }
    ∧ some "oops" ≠ (none : Option String) :=
  ⟨Reachable.errored _ "oops" Reachable.init, rfl, by simp⟩

/-- Claim C5 as amended: an error message attached via `reportError` is not
cleared by a successful advance — a transition preserves the error message
unchanged; it is cleared only by a subsequent `reportError` (steps restart by
reporting an empty message, as `BackupRecoveryCodes.generate` does on
entry). -/
theorem mfa_C5_amended_advance_preserves_error :
    ∀ (pm : Option AuthenticatorType) (s s' : WizardState) (args : List Value),
      advance pm s args = AdvanceResult.moved s' → s'.error = s.error := by
  intro pm s s' args h
  unfold advance at h
  split at h
  · exact absurd h (by simp)
  · split at h
    · exact absurd h (by simp)
    · split at h
      · exact absurd h (by simp)
      · injection h with h
        rw [← h]

/-- Witness for amended C5: the concrete advance of `mfa_C5_counterexample`
carries the error message through unchanged. -/
theorem mfa_C5_amended_witness :
    ({ step := steps.setup authenticatorApp, error := some "oops" } :
        WizardState).error =
      (reportError (initState none) "oops").error :=
  mfa_C5_amended_advance_preserves_error none
    (reportError (initState none) "oops")
    { step := steps.setup authenticatorApp, error := some "oops" }
    [Value.auth authenticatorApp] rfl

/-- Claim C6: when the current step has no successor key an advance event
closes the wizard (no transition, no factory call); both terminal `finish`
steps have no successor key. -/
theorem mfa_C6_terminal_advance_closes :
    ∀ (pm : Option AuthenticatorType) (s : WizardState) (args : List Value)
      (t fb pm2 : AuthenticatorType),
      (s.step.next = none → advance pm s args = AdvanceResult.closed)
      ∧ (steps.finish t).next = none
      ∧ (fallbackSteps.finish fb pm2).next = none := by
  intro pm s args t fb pm2
  refine ⟨fun h => ?_, rfl, rfl⟩
  unfold advance
  rw [h]

/-- Witness for C6 at the primary `finish` step. -/
theorem mfa_C6_witness :
    advance none { step := steps.finish AuthenticatorType.app, error := none }
        [] = AdvanceResult.closed :=
  (mfa_C6_terminal_advance_closes none
    { step := steps.finish AuthenticatorType.app, error := none } []
    AuthenticatorType.app AuthenticatorType.app AuthenticatorType.app).1 rfl

/-- Claim C8: when the current step's cancellable flag is not set an attempted
cancel is a no-op — the state is unchanged and the dialog does not close; both
terminal `finish` steps are non-cancellable. -/
theorem mfa_C8_non_cancellable_noop :
    ∀ (s : WizardState) (t fb pm2 : AuthenticatorType),
      (s.step.cancellable = false → attemptCancel s = (s, false))
      ∧ (steps.finish t).cancellable = false
      ∧ (fallbackSteps.finish fb pm2).cancellable = false := by
  intro s t fb pm2
  refine ⟨fun h => ?_, rfl, rfl⟩
  simp [attemptCancel, h]

/-- Witness for C8 at the primary `finish` step. -/
theorem mfa_C8_witness :
    attemptCancel { step := steps.finish AuthenticatorType.app, error := none } =
      ({ step := steps.finish AuthenticatorType.app, error := none }, false) :=
  (mfa_C8_non_cancellable_noop
    { step := steps.finish AuthenticatorType.app, error := none }
    AuthenticatorType.app AuthenticatorType.app AuthenticatorType.app).1 rfl

/-- Claim C7: local validation failures never invoke the verification
adapter: a submitted code whose length is not 6 is dropped by the form guard
before any confirmation call, and a phone input rejected by the validator
shows a validation error and blocks the setup call. -/
theorem mfa_C7_local_validation :
    ∀ (pm : Option AuthenticatorType) (s : WizardState) (isFb : Bool)
      (auth : AuthenticatorType)
      (confirm : Bool → AuthenticatorType → String → Except String Unit)
      (code : String) (validate : String → Option String) (st : SMSState)
      (n : String),
      (code.length ≠ 6 →
        submitCodeForm (some code) = none
        ∧ handleFormSubmit pm s isFb auth confirm (some code) = none)
      ∧ (n ≠ "" → validate n = none →
          (smsOnChange validate st n).error =
            some "Please enter a valid phone number with country code."
          ∧ smsSendCode (smsOnChange validate st n) =
              SendOutcome.blocked "Please provide a phone number.") := by
  intro pm s isFb auth confirm code validate st n
  constructor
  · intro hlen
    have hform : submitCodeForm (some code) = none := by
      simp [submitCodeForm, hlen]
    exact ⟨hform, by simp [handleFormSubmit, hform]⟩
  · intro hn hv
    have hst : smsOnChange validate st n =
        { phoneNumber := some ""
          error := some "Please enter a valid phone number with country code." } := by
      simp [smsOnChange, hn, hv]
    rw [hst]
    exact ⟨rfl, rfl⟩

/-- Witness for C7: the five-digit code `12345` never reaches the adapter,
and the input `notanumber`, rejected by the validator, blocks the setup
call. -/
theorem mfa_C7_witness :
    submitCodeForm (some "12345") = none
    ∧ smsSendCode (smsOnChange (fun _ => none) {} "notanumber") =
        SendOutcome.blocked "Please provide a phone number." :=
  ⟨((mfa_C7_local_validation none (initState none) false AuthenticatorType.app
      (fun _ _ _ => Except.ok ()) "12345" (fun _ => none) {} "notanumber").1
      (by decide)).1,
    ((mfa_C7_local_validation none (initState none) false AuthenticatorType.app
      (fun _ _ _ => Except.ok ()) "12345" (fun _ => none) {} "notanumber").2
      (by decide) rfl).2⟩

/-- Claim C9: a successful regenerate on the `recoveryCodes` step replaces
the displayed set wholesale: the displayed codes equal the freshly returned
set, which (by the adapter contract that regeneration invalidates old codes)
shares no code with the prior displayed set. -/
theorem mfa_C9_regenerate_replaces_wholesale :
    ∀ (prior fresh : List String),
      (∀ c ∈ fresh, c ∉ prior) →
        (generate (Except.ok (some fresh)) prior).1 = fresh
        ∧ ∀ c ∈ (generate (Except.ok (some fresh)) prior).1, c ∉ prior :=
  fun _ _ h => ⟨rfl, h⟩

/-- Witness for C9 with concrete disjoint code sets. -/
theorem mfa_C9_witness :
    (generate (Except.ok (some ["BBBB"])) ["AAAA"]).1 = ["BBBB"] :=
  (mfa_C9_regenerate_replaces_wholesale ["AAAA"] ["BBBB"] (by decide)).1

/-- Claim C10: fetching or regenerating recovery codes is atomic with respect
to the displayed set: a thrown adapter error or a missing code list leaves the
displayed codes exactly as before, and in the failure case the caught message
is reported (after the initial clearing report). -/
theorem mfa_C10_generate_atomic :
    ∀ (prior : List String) (msg : String),
      (generate (Except.error msg) prior).1 = prior
      ∧ (generate (Except.ok none) prior).1 = prior
      ∧ (generate (Except.error msg) prior).2 = ["", msg] :=
  fun _ _ => ⟨rfl, rfl, rfl⟩
